import Mathlib

/-!
Verification development for the `logflow` system-monitor repository.

The definitions below are a shallow embedding of the core of
`src/src/app.py` (the "Pro" variant, which carries the rolling-history
graphs) together with the start/stop lifecycle that `src/app.py` shares
with it.  Python floats are modelled by `ℚ` (every operation the code
performs on them — `min`, comparison, subtraction — is exact), psutil
counters by `ℕ`, counter deltas by `ℤ`, and a psutil call that may raise
by an `Except Unit` value.
-/

namespace LogFlow

/-! ## Definitions

### Rolling history buffer (`GraphCanvas`) -/

/-- `GRAPH_HISTORY_POINTS = 60` from the configuration block of `app.py`. -/
def GRAPH_HISTORY_POINTS : Nat := 60

/-- The state of a `GraphCanvas` object: the rolling-history deque together
with the two construction-time parameters that govern it.  The tkinter
canvas and geometry fields play no role in the data behaviour and are
omitted. -/
structure GraphCanvas where
  history_points : Nat
  max_value : ℚ
  data_history : List ℚ
deriving DecidableEq, Repr

/-- `collections.deque` with `maxlen`: appending pushes to the back and, once
the length would exceed `maxlen`, discards elements from the front.  With
truncated (`Nat`) subtraction the unconditional `drop` is exactly that. -/
def dequeAppend (maxlen : Nat) (xs : List ℚ) (v : ℚ) : List ℚ :=
  let ys := xs ++ [v]
  ys.drop (ys.length - maxlen)

/-- `GraphCanvas.__init__`: `self.data_history = deque([0] * self.history_points,
maxlen=self.history_points)` with `self.max_value = max_value`. -/
def GraphCanvas.init (max_value : ℚ) (history_points : Nat) : GraphCanvas :=
  ⟨history_points, max_value, List.replicate history_points 0⟩

/-- `GraphCanvas.add_data_point`:
`self.data_history.append(min(value, self.max_value))` — the code caps the
value at `max_value` (the comment reads "Cap value at max_value") and the
deque evicts from the front when full.  Python's two-argument `min` and
Lean's `min` agree: the first argument is returned when `value <= max`. -/
def GraphCanvas.add_data_point (g : GraphCanvas) (value : ℚ) : GraphCanvas :=
  ⟨g.history_points, g.max_value,
    dequeAppend g.history_points g.data_history (min value g.max_value)⟩

/-- Reading the buffer's current contents, oldest first
(`list(self.data_history)`, as `draw_graph` does). -/
def GraphCanvas.snapshot (g : GraphCanvas) : List ℚ :=
  g.data_history

/-- A whole sequence of `add_data_point` calls, in order. -/
def appendAll (g : GraphCanvas) (vs : List ℚ) : GraphCanvas :=
  vs.foldl GraphCanvas.add_data_point g

/-- The clamping operation described by the spec's words ("clamps `value`
into `[0, max]`"), stated separately so it can be compared with what
`add_data_point` actually stores. -/
def specClamp (maxv v : ℚ) : ℚ :=
  max 0 (min v maxv)

/-! ### Metric probes

Each psutil call that may raise is modelled by an `Except Unit` argument:
`Except.ok` is the value the call returned, `Except.error ()` is the call
raising.  A probe returning `Except` passes its argument's exception on; a
probe returning `Option` has swallowed it (`try`/`except` in the source). -/

/-- psutil `scpufreq` object (`cpu_freq()` can also return `None`). -/
structure CpuFreq where
  current : ℚ
  min : ℚ
  max : ℚ
deriving DecidableEq

/-- psutil `scpustats` object. -/
structure CpuStats where
  ctx_switches : Nat
  interrupts : Nat
  soft_interrupts : Nat
  syscalls : Nat
deriving DecidableEq

/-- The dict `get_cpu_stats_info` builds (it drops `syscalls`). -/
structure CpuStatsDict where
  ctx_switches : Nat
  interrupts : Nat
  soft_interrupts : Nat
deriving DecidableEq

/-- psutil `svmem` object (the Linux-only extra fields beyond those the code
copies are represented by `active`/`inactive`). -/
structure VirtualMemory where
  total : Nat
  available : Nat
  percent : ℚ
  used : Nat
  free : Nat
  active : Nat
  inactive : Nat
deriving DecidableEq

/-- The dict `get_memory_usage` builds. -/
structure MemoryDict where
  total : Nat
  available : Nat
  percent : ℚ
  used : Nat
  free : Nat
deriving DecidableEq

/-- psutil `sswap` object. -/
structure SwapMemory where
  total : Nat
  used : Nat
  free : Nat
  percent : ℚ
  sin : Nat
  sout : Nat
deriving DecidableEq

/-- The dict `get_swap_memory_usage` builds (it drops `sin`/`sout`). -/
structure SwapDict where
  total : Nat
  used : Nat
  free : Nat
  percent : ℚ
deriving DecidableEq

/-- psutil `sdiskusage` object / the dict `get_disk_usage` builds. -/
structure DiskUsage where
  total : Nat
  used : Nat
  free : Nat
  percent : ℚ
deriving DecidableEq

/-- psutil `sdiskio` counters / the dict `get_disk_io_counters` builds. -/
structure DiskCounters where
  read_count : Nat
  write_count : Nat
  read_bytes : Nat
  write_bytes : Nat
deriving DecidableEq

/-- `get_cpu_usage`:
`return psutil.cpu_percent(interval=CPU_READ_INTERVAL_SECONDS)` — a bare
accessor call with no handler, so the accessor's outcome (exception
included) is the probe's outcome. -/
def get_cpu_usage (os_cpu_percent : Except Unit ℚ) : Except Unit ℚ :=
  os_cpu_percent

/-- `get_per_core_cpu_usage`:
`return psutil.cpu_percent(interval=..., percpu=True)` — likewise a bare
accessor call with no handler. -/
def get_per_core_cpu_usage (os_cpu_percent_percpu : Except Unit (List ℚ)) :
    Except Unit (List ℚ) :=
  os_cpu_percent_percpu

/-- `get_cpu_frequency`: the `psutil.cpu_freq()` call sits inside
`try`/`except Exception: return None`, and a falsy (`None`) result also
yields `None`. -/
def get_cpu_frequency (os_cpu_freq : Except Unit (Option CpuFreq)) :
    Option CpuFreq :=
  match os_cpu_freq with
  | Except.error _ => none
  | Except.ok none => none
  | Except.ok (some freq) => some ⟨freq.current, freq.min, freq.max⟩

/-- `get_cpu_stats_info`: `psutil.cpu_stats()` inside `try`/`except`,
returning `None` on any exception. -/
def get_cpu_stats_info (os_cpu_stats : Except Unit CpuStats) :
    Option CpuStatsDict :=
  match os_cpu_stats with
  | Except.error _ => none
  | Except.ok stats => some ⟨stats.ctx_switches, stats.interrupts, stats.soft_interrupts⟩

/-- `get_memory_usage`: `mem = psutil.virtual_memory()` with **no**
`try`/`except` — an accessor exception propagates past the probe's own
boundary. -/
def get_memory_usage (os_virtual_memory : Except Unit VirtualMemory) :
    Except Unit MemoryDict :=
  match os_virtual_memory with
  | Except.error e => Except.error e
  | Except.ok mem => Except.ok ⟨mem.total, mem.available, mem.percent, mem.used, mem.free⟩

/-- `get_swap_memory_usage`: `psutil.swap_memory()` with **no**
`try`/`except` — an accessor exception propagates. -/
def get_swap_memory_usage (os_swap_memory : Except Unit SwapMemory) :
    Except Unit SwapDict :=
  match os_swap_memory with
  | Except.error e => Except.error e
  | Except.ok swap => Except.ok ⟨swap.total, swap.used, swap.free, swap.percent⟩

/-- `get_disk_usage(path)`: the `psutil.disk_usage(path)` outcome (which is
what depends on the path) arrives as the argument; any exception yields
`None`. -/
def get_disk_usage (os_disk_usage : Except Unit DiskUsage) : Option DiskUsage :=
  match os_disk_usage with
  | Except.error _ => none
  | Except.ok disk => some ⟨disk.total, disk.used, disk.free, disk.percent⟩

/-- `get_disk_io_counters`: `psutil.disk_io_counters(perdisk=False)` inside
`try`/`except`; both an exception and a `None` result yield `None`. -/
def get_disk_io_counters (os_disk_counters : Except Unit (Option DiskCounters)) :
    Option DiskCounters :=
  match os_disk_counters with
  | Except.error _ => none
  | Except.ok none => none
  | Except.ok (some d) => some ⟨d.read_count, d.write_count, d.read_bytes, d.write_bytes⟩

/-- One entry of psutil `sensors_temperatures()`: a labelled reading (the
`high`/`critical` fields the code never reads are omitted). -/
structure SensorEntry where
  label : String
  current : ℚ
deriving DecidableEq

/-- The shapes `get_cpu_temperatures` returns: a dict mapping display labels
to degrees, or a dict carrying a single `"error"` or `"info"` entry. -/
inductive TempsResult
  | temps (m : List (String × ℚ))
  | errorMarker (msg : String)
  | infoMarker (msg : String)
deriving DecidableEq

/-- Python's substring test `needle in hay`, on character lists. -/
def charsContain (hay needle : List Char) : Bool :=
  match hay with
  | [] => needle.isEmpty
  | _ :: rest => needle.isPrefixOf hay || charsContain rest needle

/-- Python's substring test `sub in s` on strings. -/
def strContains (s sub : String) : Bool :=
  charsContain s.data sub.data

/-- Python's `str.lower()`, as a per-character map over the string's
characters. -/
def strToLower (s : String) : String :=
  String.mk (s.data.map Char.toLower)

/-- `priority_keys = ['coretemp', 'k10temp', 'cpu_thermal', 'acpitz']` from
`get_cpu_temperatures`. -/
def priority_keys : List String :=
  ["coretemp", "k10temp", "cpu_thermal", "acpitz"]

/-- Python dict assignment `d[k] = v`: overwrite in place if the key exists
(keeping its insertion position), else append. -/
def dictInsert (d : List (String × ℚ)) (k : String) (v : ℚ) : List (String × ℚ) :=
  match d with
  | [] => [(k, v)]
  | (k0, v0) :: rest =>
    if k0 = k then (k0, v) :: rest else (k0, v0) :: dictInsert rest k v

/-- The double loop of `get_cpu_temperatures`: for every sensor name and every
entry, keep the reading when the sensor is a priority key or the lowered
label contains "cpu", "core" or "package", under the key
`f"{label} ({name})"` (with `name` replacing an empty label). -/
def collectTemps (sensor_temps : List (String × List SensorEntry)) :
    List (String × ℚ) :=
  sensor_temps.foldl (fun acc pair =>
    pair.2.foldl (fun acc2 entry =>
      let is_priority := priority_keys.contains pair.1
      let is_cpu_label :=
        ["cpu", "core", "package"].any (fun k => strContains (strToLower entry.label) k)
      if is_priority || is_cpu_label then
        let lbl := if entry.label = "" then pair.1 else entry.label
        dictInsert acc2 (lbl ++ " (" ++ pair.1 ++ ")") entry.current
      else acc2) acc) []

/-- `get_cpu_temperatures`: `psutil.sensors_temperatures()` (an ordered dict,
modelled as an association list) inside `try`/`except`.  An exception yields
the `"Unavailable"` error marker; an empty dict the "Not supported" error
marker; otherwise the filtered readings, falling back to the very first
entry (keyed `"... (Fallback)"`) when the filter kept nothing, and to the
info marker when even that first sensor has no entries. -/
def get_cpu_temperatures
    (os_sensors : Except Unit (List (String × List SensorEntry))) : TempsResult :=
  match os_sensors with
  | Except.error _ => TempsResult.errorMarker "Unavailable"
  | Except.ok [] => TempsResult.errorMarker "Not supported or no sensors."
  | Except.ok (first :: rest) =>
    let temps := collectTemps (first :: rest)
    if temps.isEmpty then
      match first.2 with
      | [] => TempsResult.infoMarker "No CPU temperature sensors identified."
      | entry :: _ =>
        TempsResult.temps
          [((if entry.label = "" then first.1 else entry.label) ++ " (Fallback)",
            entry.current)]
    else TempsResult.temps temps

/-! ### Network delta tracker -/

/-- The fields of psutil `net_io_counters()` that the code reads. -/
structure NetCounters where
  bytes_sent : Nat
  bytes_recv : Nat
deriving DecidableEq

/-- The session-relative deltas `get_network_stats` returns; cumulative
counters are `Nat`, their difference is an `Int` (a reset counter can make
it negative). -/
structure NetDeltas where
  bytes_sent_session : Int
  bytes_recv_session : Int
deriving DecidableEq

/-- `get_network_stats`: the module global `network_stats_initial` is passed
in and returned explicitly; `net_io` is what `psutil.net_io_counters()`
returned at this call.  If no baseline exists yet the current counters are
adopted as the baseline, then both session deltas are `current - baseline`. -/
def get_network_stats (network_stats_initial : Option NetCounters)
    (net_io : NetCounters) : Option NetCounters × NetDeltas :=
  let base := network_stats_initial.getD net_io
  (some base,
    ⟨(net_io.bytes_sent : Int) - base.bytes_sent,
     (net_io.bytes_recv : Int) - base.bytes_recv⟩)

/-! ### Process snapshot builder -/

/-- The attribute dict `proc.as_dict(attrs=[...])` yields: all five keys are
always present; psutil may report `None` for a value that is not available
yet (the first-sample transient) or not readable. -/
structure ProcessAttrs where
  pid : Nat
  name : Option String
  username : Option String
  cpu_percent : Option ℚ
  memory_percent : Option ℚ
deriving DecidableEq

/-- The outcome of the attribute read for one enumerated process: the dict,
or one of the three psutil exceptions the code catches. -/
inductive ProcFetch
  | ok (attrs : ProcessAttrs)
  | noSuchProcess
  | accessDenied
  | zombieProcess
deriving DecidableEq

/-- The defaulting step
`if p_info['cpu_percent'] is None: p_info['cpu_percent'] = 0.0` — only the
cpu field is touched. -/
def defaultCpu (p : ProcessAttrs) : ProcessAttrs :=
  match p.cpu_percent with
  | none => ⟨p.pid, p.name, p.username, some 0, p.memory_percent⟩
  | some _ => p

/-- `get_processes_info`: for each enumerated process, read its attribute
dict, default a missing cpu percent to `0.0`, append it; silently skip any
process whose read raised `NoSuchProcess`, `AccessDenied` or
`ZombieProcess`. -/
def get_processes_info (procs : List ProcFetch) : List ProcessAttrs :=
  procs.filterMap (fun p =>
    match p with
    | ProcFetch.ok attrs => some (defaultCpu attrs)
    | _ => none)

/-! ### The update cycle's probe sequence -/

/-- The psutil outcomes one cycle of `update_ui_labels` consumes, listed in
the order the `try` block reaches them. -/
structure CycleAccessors where
  cpu_percent : Except Unit ℚ
  per_core : Except Unit (List ℚ)
  cpu_freq : Except Unit (Option CpuFreq)
  cpu_stats : Except Unit CpuStats
  sensors : Except Unit (List (String × List SensorEntry))
  virtual_memory : Except Unit VirtualMemory
  swap_memory : Except Unit SwapMemory
  disk_usage : Except Unit DiskUsage
  disk_counters : Except Unit (Option DiskCounters)
  net_counters : Except Unit NetCounters

/-- What one cycle produced for each metric family: `none` means the `try`
block raised before reaching that probe, so the metric was not produced that
cycle. -/
structure CycleOutputs where
  cpu_percent : Option ℚ
  core_usages : Option (List ℚ)
  cpu_freq : Option (Option CpuFreq)
  cpu_stats : Option (Option CpuStatsDict)
  temps : Option TempsResult
  memory : Option MemoryDict
  swap : Option SwapDict
  disk : Option (Option DiskUsage)
  disk_counters : Option (Option DiskCounters)
  net : Option NetDeltas

/-- The `try` block of `update_ui_labels` at the metric level: the probes run
in source order (overall CPU, per-core CPU, frequency, stats, temperatures,
memory, swap, disk usage, disk I/O, network), and the first call that raises
aborts the block — its single `except Exception` handler logs and sets an
error status — so the metrics read before the raising probe stand while
every one after it is missing that cycle.  Label rendering, the graph
appends, the uptime/process-table steps that follow the network read, and
the partition-selection guard (a partition is taken as selected) are
omitted; none of them affects which probes run before or after a raising
one among those modelled. -/
def update_cycle (acc : CycleAccessors) (baseline : Option NetCounters) :
    CycleOutputs :=
  match get_cpu_usage acc.cpu_percent with
  | Except.error _ =>
    ⟨none, none, none, none, none, none, none, none, none, none⟩
  | Except.ok cpu =>
    match get_per_core_cpu_usage acc.per_core with
    | Except.error _ =>
      ⟨some cpu, none, none, none, none, none, none, none, none, none⟩
    | Except.ok cores =>
      let freq := get_cpu_frequency acc.cpu_freq
      let cpu_s := get_cpu_stats_info acc.cpu_stats
      let temps := get_cpu_temperatures acc.sensors
      match get_memory_usage acc.virtual_memory with
      | Except.error _ =>
        ⟨some cpu, some cores, some freq, some cpu_s, some temps,
          none, none, none, none, none⟩
      | Except.ok mem =>
        match get_swap_memory_usage acc.swap_memory with
        | Except.error _ =>
          ⟨some cpu, some cores, some freq, some cpu_s, some temps,
            some mem, none, none, none, none⟩
        | Except.ok swap =>
          let disk := get_disk_usage acc.disk_usage
          let dio := get_disk_io_counters acc.disk_counters
          match acc.net_counters with
          | Except.error _ =>
            ⟨some cpu, some cores, some freq, some cpu_s, some temps,
              some mem, some swap, some disk, some dio, none⟩
          | Except.ok net_io =>
            ⟨some cpu, some cores, some freq, some cpu_s, some temps,
              some mem, some swap, some disk, some dio,
              some (get_network_stats baseline net_io).2⟩

/-! ### Start/stop lifecycle -/

/-- The lifecycle state: the module-level globals (`monitoring_active`,
`stop_monitoring_event`, `monitoring_thread`, `network_stats_initial`)
together with the `SystemMonitorApp` graph buffers the cycle feeds.
`threads` counts monitoring threads spawned and still running. -/
structure AppState where
  monitoring_active : Bool
  stop_monitoring_event : Bool
  network_stats_initial : Option NetCounters
  cpu_graph : GraphCanvas
  mem_graph : GraphCanvas
  threads : Nat
deriving DecidableEq

/-- What `SystemMonitorApp.start_monitoring` reports back to the user. -/
inductive StartResult
  | alreadyActive
  | invalidInterval
  | started
deriving DecidableEq

/-- `SystemMonitorApp.start_monitoring`.  `interval` is the result of
`float(self.interval_var.get())` — `none` models the `ValueError` branch;
`net_now` is what `psutil.net_io_counters()` returns at this call.  The
checks run in source order: the already-active guard, then interval
validation, and only then are the flags set, the fresh baseline stored and
the monitoring thread spawned.  Nothing touches the graph buffers. -/
def start_monitoring (s : AppState) (interval : Option ℚ) (net_now : NetCounters) :
    AppState × StartResult :=
  if s.monitoring_active then
    (s, StartResult.alreadyActive)
  else
    match interval with
    | none => (s, StartResult.invalidInterval)
    | some i =>
      if i ≤ 0 then
        (s, StartResult.invalidInterval)
      else
        (⟨true, false, some net_now, s.cpu_graph, s.mem_graph, s.threads + 1⟩,
         StartResult.started)

/-- A state as a previous, since-stopped session leaves it: idle, with data
still in the cpu history buffer and a stale baseline. -/
def staleState : AppState :=
  ⟨false, true, some ⟨1000, 2000⟩, ⟨5, 100, [0, 0, 0, 0, 50]⟩,
    GraphCanvas.init 100 5, 0⟩

/-! ## Lemmas about the rolling buffer -/

theorem dequeAppend_length (m : Nat) (xs : List ℚ) (v : ℚ) (h : xs.length = m) :
    (dequeAppend m xs v).length = m := by
  simp only [dequeAppend, List.length_drop, List.length_append, List.length_cons,
    List.length_nil]
  omega

theorem dequeAppend_full (m : Nat) (xs : List ℚ) (v : ℚ) (h : xs.length = m) :
    dequeAppend m xs v = (xs ++ [v]).drop 1 := by
  have h1 : (xs ++ [v]).length - m = 1 := by
    simp only [List.length_append, List.length_cons, List.length_nil]
    omega
  show ((xs ++ [v]).drop ((xs ++ [v]).length - m)) = (xs ++ [v]).drop 1
  rw [h1]

theorem dequeAppend_getLast (m : Nat) (xs : List ℚ) (v : ℚ) (hm : 0 < m) :
    (dequeAppend m xs v).getLast? = some v := by
  have hk : (xs ++ [v]).length - m ≤ xs.length := by
    simp only [List.length_append, List.length_cons, List.length_nil]
    omega
  show ((xs ++ [v]).drop ((xs ++ [v]).length - m)).getLast? = some v
  rw [List.drop_append_of_le_length hk, List.getLast?_concat]

/-- How a full buffer evolves under a whole append sequence: the contents are
the old contents followed by the capped values, with as many elements dropped
from the front as were appended. -/
theorem appendAll_data_history :
    ∀ (vs : List ℚ) (g : GraphCanvas), g.data_history.length = g.history_points →
      (appendAll g vs).data_history
        = (g.data_history ++ vs.map (fun w => min w g.max_value)).drop vs.length
  | [], g, _ => by simp [appendAll]
  | v :: vs, g, h => by
    have hlen : (g.add_data_point v).data_history.length
        = (g.add_data_point v).history_points :=
      dequeAppend_length _ _ _ h
    have hstep : (g.add_data_point v).data_history
        = (g.data_history ++ [min v g.max_value]).drop 1 :=
      dequeAppend_full _ _ _ h
    have ih := appendAll_data_history vs (g.add_data_point v) hlen
    calc (appendAll g (v :: vs)).data_history
        = (appendAll (g.add_data_point v) vs).data_history := rfl
      _ = ((g.add_data_point v).data_history
            ++ vs.map (fun w => min w g.max_value)).drop vs.length := ih
      _ = (((g.data_history ++ [min v g.max_value]).drop 1)
            ++ vs.map (fun w => min w g.max_value)).drop vs.length := by rw [hstep]
      _ = (((g.data_history ++ [min v g.max_value])
            ++ vs.map (fun w => min w g.max_value)).drop 1).drop vs.length := by
            rw [show ((g.data_history ++ [min v g.max_value]).drop 1)
                  ++ vs.map (fun w => min w g.max_value)
                = ((g.data_history ++ [min v g.max_value])
                  ++ vs.map (fun w => min w g.max_value)).drop 1 from
              (List.drop_append_of_le_length (by simp)).symm]
      _ = ((g.data_history ++ [min v g.max_value])
            ++ vs.map (fun w => min w g.max_value)).drop (1 + vs.length) := by
            rw [List.drop_drop]
      _ = (g.data_history
            ++ (v :: vs).map (fun w => min w g.max_value)).drop ((v :: vs).length) := by
            rw [List.append_assoc]
            simp [Nat.add_comm]

/-- The buffer length is preserved by any append sequence once it matches the
configured capacity (as it does from construction on, thanks to the
zero-prefill). -/
theorem appendAll_length (vs : List ℚ) (g : GraphCanvas)
    (h : g.data_history.length = g.history_points) :
    (appendAll g vs).data_history.length = g.history_points := by
  rw [appendAll_data_history vs g h]
  simp only [List.length_drop, List.length_append, List.length_map, h]
  omega

theorem init_history_length (maxv : ℚ) (C : Nat) :
    (GraphCanvas.init maxv C).data_history.length
      = (GraphCanvas.init maxv C).history_points := by
  simp [GraphCanvas.init]

/-! ## Claims -/

/-- C1: the claim says `append` clamps into `[0, max]`, storing exactly `0`
for a negative input.  The code stores `min(value, max_value)` only, so a
fresh buffer (capacity 5, max 100) given `-5` stores `-5`, not `0`. -/
theorem C1_no_lower_clamp_counterexample :
    (-5 : ℚ) < 0 ∧
    ((GraphCanvas.init 100 5).add_data_point (-5)).snapshot.getLast? = some (-5) ∧
    some (-5 : ℚ) ≠ some (0 : ℚ) := by decide

/-- C1 (amended): `append` caps the value at `max` only: the stored value is
`min value max`; for `value > max` it is exactly `max`, and for
`value ≤ max` — negative values included — it is `value` unchanged. -/
theorem C1_cap_at_max_only (g : GraphCanvas) (v : ℚ) (hp : 0 < g.history_points) :
    ((g.add_data_point v).snapshot.getLast? = some (min v g.max_value)) ∧
    (g.max_value < v → (g.add_data_point v).snapshot.getLast? = some g.max_value) ∧
    (v ≤ g.max_value → (g.add_data_point v).snapshot.getLast? = some v) := by
  have hlast : (g.add_data_point v).snapshot.getLast? = some (min v g.max_value) :=
    dequeAppend_getLast _ _ _ hp
  refine ⟨hlast, fun hgt => ?_, fun hle => ?_⟩
  · rw [hlast, min_eq_right (le_of_lt hgt)]
  · rw [hlast, min_eq_left hle]

theorem C1_cap_at_max_only_witness :
    0 < (GraphCanvas.init 100 5).history_points ∧
    ((((GraphCanvas.init 100 5).add_data_point (-5)).snapshot.getLast?
        = some (min (-5) (GraphCanvas.init 100 5).max_value)) ∧
     ((GraphCanvas.init 100 5).max_value < -5 →
        ((GraphCanvas.init 100 5).add_data_point (-5)).snapshot.getLast?
          = some (GraphCanvas.init 100 5).max_value) ∧
     ((-5 : ℚ) ≤ (GraphCanvas.init 100 5).max_value →
        ((GraphCanvas.init 100 5).add_data_point (-5)).snapshot.getLast?
          = some (-5))) :=
  ⟨by decide, C1_cap_at_max_only (GraphCanvas.init 100 5) (-5) (by decide)⟩

/-- C2: the claimed final snapshot `[100, 0, 50, 60, 70]` is wrong: the code
leaves `-5` unclamped below, so the scenario (capacity 5, max 100, appends
`[10, 200, -5, 50, 60, 70]`) ends with snapshot `[100, -5, 50, 60, 70]`. -/
theorem C2_scenario_counterexample :
    (appendAll (GraphCanvas.init 100 5) [10, 200, -5, 50, 60, 70]).snapshot
      = [100, -5, 50, 60, 70] ∧
    ([100, -5, 50, 60, 70] : List ℚ) ≠ [100, 0, 50, 60, 70] := by decide

/-- C2 (amended): with capacity 5 and max 100, appending
`[10, 200, -5, 50, 60, 70]` leaves the snapshot `[100, -5, 50, 60, 70]`:
`200` is capped to `100`, `-5` is stored unchanged, and the first append
(`10`, together with the construction-time zero prefill) has been evicted. -/
theorem C2_scenario_actual :
    (appendAll (GraphCanvas.init 100 5) [10, 200, -5, 50, 60, 70]).snapshot
      = [100, -5, 50, 60, 70] := by decide

/-- C3: the claim describes the retained window as the last C appended values
"clamped" — clamped into `[0, max]` per the invariant it cites.  With
capacity 2, max 100 and appends `[5, -1, 7]` (N = 3 > C = 2) the code's
snapshot is `[-1, 7]`, while the last 2 values clamped into `[0, 100]` are
`[0, 7]`. -/
theorem C3_window_counterexample :
    (2 : Nat) < ([5, -1, 7] : List ℚ).length ∧
    (appendAll (GraphCanvas.init 100 2) [5, -1, 7]).snapshot = [-1, 7] ∧
    (([5, -1, 7] : List ℚ).map (specClamp 100)).drop 1 = [0, 7] ∧
    ([-1, 7] : List ℚ) ≠ [0, 7] := by decide

/-- C3 (amended): for every buffer of capacity C and every append sequence of
length N > C, the snapshot length is always exactly C (also after every
prefix of the appends), the final snapshot is the last C appended values
capped at max (`min value max`; negatives kept) in append order, and each
append to a full buffer evicts exactly the single oldest element. -/
theorem C3_rolling_window (C : Nat) (maxv : ℚ) (vs : List ℚ)
    (hN : C < vs.length) :
    (appendAll (GraphCanvas.init maxv C) vs).snapshot.length = C ∧
    (appendAll (GraphCanvas.init maxv C) vs).snapshot
      = (vs.map (fun w => min w maxv)).drop (vs.length - C) ∧
    (∀ k, (appendAll (GraphCanvas.init maxv C) (vs.take k)).snapshot.length = C) ∧
    (∀ g : GraphCanvas, 0 < g.history_points →
        g.data_history.length = g.history_points → ∀ v,
        (g.add_data_point v).data_history
          = g.data_history.drop 1 ++ [min v g.max_value]) := by
  refine ⟨appendAll_length vs _ (init_history_length maxv C), ?_, ?_, ?_⟩
  · rw [show (appendAll (GraphCanvas.init maxv C) vs).snapshot
          = (appendAll (GraphCanvas.init maxv C) vs).data_history from rfl,
      appendAll_data_history vs _ (init_history_length maxv C)]
    show (List.replicate C (0 : ℚ)
        ++ vs.map (fun w => min w maxv)).drop vs.length
      = (vs.map (fun w => min w maxv)).drop (vs.length - C)
    rw [List.drop_append_eq_append_drop,
      List.drop_eq_nil_of_le (by rw [List.length_replicate]; omega),
      List.length_replicate, List.nil_append]
  · intro k
    exact appendAll_length (vs.take k) _ (init_history_length maxv C)
  · intro g hp h v
    rw [show (g.add_data_point v).data_history
          = dequeAppend g.history_points g.data_history (min v g.max_value) from rfl,
      dequeAppend_full _ _ _ h,
      List.drop_append_of_le_length (by omega)]

theorem C3_rolling_window_witness :
    (2 : Nat) < ([5, -1, 7] : List ℚ).length ∧
    ((appendAll (GraphCanvas.init 100 2) [5, -1, 7]).snapshot.length = 2 ∧
     (appendAll (GraphCanvas.init 100 2) [5, -1, 7]).snapshot
       = (([5, -1, 7] : List ℚ).map (fun w => min w 100)).drop
           (([5, -1, 7] : List ℚ).length - 2) ∧
     (∀ k, (appendAll (GraphCanvas.init 100 2)
         (([5, -1, 7] : List ℚ).take k)).snapshot.length = 2) ∧
     (∀ g : GraphCanvas, 0 < g.history_points →
         g.data_history.length = g.history_points → ∀ v,
         (g.add_data_point v).data_history
           = g.data_history.drop 1 ++ [min v g.max_value])) :=
  ⟨by decide, C3_rolling_window 2 100 [5, -1, 7] (by decide)⟩

/-- C4: the claim's re-initialization half fails.  Starting from `staleState`
(idle after a previous session, cpu history `[0,0,0,0,50]`) the Idle → Running
transition leaves the history buffer holding `[0,0,0,0,50]`, not capacity
copies of the neutral value 0 — `start_monitoring` never touches the graph
buffers. -/
theorem C4_no_history_reinit_counterexample :
    (start_monitoring staleState (some 2) ⟨5000, 6000⟩).2 = StartResult.started ∧
    (start_monitoring staleState (some 2) ⟨5000, 6000⟩).1.monitoring_active = true ∧
    (start_monitoring staleState (some 2) ⟨5000, 6000⟩).1.cpu_graph.data_history
      = [0, 0, 0, 0, 50] ∧
    ([0, 0, 0, 0, 50] : List ℚ) ≠ List.replicate 5 (0 : ℚ) := by decide

/-- C4 (amended): every Idle → Running `start` captures a fresh SessionBaseline —
exactly the network counters read at that start call, replacing any stale
baseline from a previous session — before the sampling thread begins; but the
RollingHistory buffers are **not** re-initialized: they are zero-filled once at
construction and keep their previous contents across restarts. -/
theorem C4_fresh_baseline_histories_kept (s : AppState) (i : ℚ) (net_now : NetCounters)
    (hidle : s.monitoring_active = false) (hi : 0 < i) :
    (start_monitoring s (some i) net_now).2 = StartResult.started ∧
    (start_monitoring s (some i) net_now).1.monitoring_active = true ∧
    (start_monitoring s (some i) net_now).1.network_stats_initial = some net_now ∧
    (start_monitoring s (some i) net_now).1.cpu_graph = s.cpu_graph ∧
    (start_monitoring s (some i) net_now).1.mem_graph = s.mem_graph := by
  simp [start_monitoring, hidle, not_le.mpr hi]

theorem C4_fresh_baseline_histories_kept_witness :
    staleState.monitoring_active = false ∧ (0 : ℚ) < 2 ∧
    ((start_monitoring staleState (some 2) ⟨5000, 6000⟩).2 = StartResult.started ∧
     (start_monitoring staleState (some 2) ⟨5000, 6000⟩).1.monitoring_active = true ∧
     (start_monitoring staleState (some 2) ⟨5000, 6000⟩).1.network_stats_initial
       = some ⟨5000, 6000⟩ ∧
     (start_monitoring staleState (some 2) ⟨5000, 6000⟩).1.cpu_graph
       = staleState.cpu_graph ∧
     (start_monitoring staleState (some 2) ⟨5000, 6000⟩).1.mem_graph
       = staleState.mem_graph) :=
  ⟨rfl, by norm_num,
    C4_fresh_baseline_histories_kept staleState 2 ⟨5000, 6000⟩ rfl (by norm_num)⟩

/-- C5: the claim says every probe returns a value or a marker and never lets
an exception escape its own boundary, but `get_memory_usage` has no exception
handler: when `psutil.virtual_memory()` raises, the probe raises too (while a
guarded probe such as `get_cpu_frequency` returns its `None` marker). -/
theorem C5_memory_probe_raises_counterexample :
    get_memory_usage (Except.error ()) = Except.error () ∧
    get_cpu_frequency (Except.error ()) = none :=
  ⟨rfl, rfl⟩

/-- C5 (amended): the probes whose psutil call sits inside `try`/`except` —
CPU frequency, CPU stats, disk usage, disk I/O and temperatures — return the
explicit unavailable/error marker whenever the accessor raises and never let
an exception escape; the CPU percent (overall and per-core), memory and swap
probes have no handler of their own and propagate the accessor's exception
past their boundary, where the update cycle's single `try`/`except` catches
it.  In the cycle this means: when a guarded probe's accessor fails
(temperatures below), every other metric of that cycle is still produced
with the failed one carrying its marker, but when an unguarded probe raises
(memory below), the metrics read before it stand and every metric after it
is not produced that cycle. -/
theorem C5_probe_exception_boundaries (e : Unit)
    (c : ℚ) (cores : List ℚ) (f : Except Unit (Option CpuFreq))
    (st : Except Unit CpuStats)
    (se : Except Unit (List (String × List SensorEntry)))
    (mem : VirtualMemory) (swp : SwapMemory)
    (sm : Except Unit SwapMemory)
    (du : Except Unit DiskUsage) (dc : Except Unit (Option DiskCounters))
    (nc : Except Unit NetCounters) (net : NetCounters)
    (baseline : Option NetCounters) :
    (get_cpu_frequency (Except.error e) = none ∧
     get_cpu_stats_info (Except.error e) = none ∧
     get_disk_usage (Except.error e) = none ∧
     get_disk_io_counters (Except.error e) = none ∧
     get_cpu_temperatures (Except.error e) = TempsResult.errorMarker "Unavailable") ∧
    (get_cpu_usage (Except.error e) = Except.error e ∧
     get_per_core_cpu_usage (Except.error e) = Except.error e ∧
     get_memory_usage (Except.error e) = Except.error e ∧
     get_swap_memory_usage (Except.error e) = Except.error e) ∧
    update_cycle
        ⟨Except.ok c, Except.ok cores, f, st, se, Except.error e, sm, du, dc, nc⟩
        baseline
      = ⟨some c, some cores, some (get_cpu_frequency f),
         some (get_cpu_stats_info st), some (get_cpu_temperatures se),
         none, none, none, none, none⟩ ∧
    update_cycle
        ⟨Except.ok c, Except.ok cores, f, st, Except.error e,
          Except.ok mem, Except.ok swp, du, dc, Except.ok net⟩
        baseline
      = ⟨some c, some cores, some (get_cpu_frequency f),
         some (get_cpu_stats_info st),
         some (TempsResult.errorMarker "Unavailable"),
         some ⟨mem.total, mem.available, mem.percent, mem.used, mem.free⟩,
         some ⟨swp.total, swp.used, swp.free, swp.percent⟩,
         some (get_disk_usage du), some (get_disk_io_counters dc),
         some (get_network_stats baseline net).2⟩ :=
  ⟨⟨rfl, rfl, rfl, rfl, rfl⟩, ⟨rfl, rfl, rfl, rfl⟩, rfl, rfl⟩

/-- C6: only the cpu field is defaulted.  A process whose first sample reports
`None` for both percents comes back with `cpu_percent = 0.0` but
`memory_percent` still `None` — not the numeric `0.0` the claim requires. -/
theorem C6_memory_percent_not_defaulted_counterexample :
    (get_processes_info
        [ProcFetch.ok ⟨1, some "systemd", some "root", none, none⟩]).map
      (fun r => r.cpu_percent) = [some 0] ∧
    (get_processes_info
        [ProcFetch.ok ⟨1, some "systemd", some "root", none, none⟩]).map
      (fun r => r.memory_percent) = [none] ∧
    (none : Option ℚ) ≠ some 0 := by decide

/-- C6 (amended): in every record `get_processes_info` returns, `cpu_percent`
is numeric — a `None` from the OS is replaced by `0.0` — while
`memory_percent` is passed through exactly as the OS reported it, so on the
first-sample transient it can be `None` (the UI substitutes "0.0%" only at
render time). -/
theorem C6_cpu_defaulted_memory_kept (procs : List ProcFetch) (r : ProcessAttrs)
    (hr : r ∈ get_processes_info procs) :
    r.cpu_percent.isSome = true ∧
    ∃ attrs, ProcFetch.ok attrs ∈ procs ∧ r = defaultCpu attrs ∧
      r.memory_percent = attrs.memory_percent := by
  rcases List.mem_filterMap.mp hr with ⟨p, hp, hfp⟩
  cases p with
  | ok attrs =>
    simp only [Option.some.injEq] at hfp
    subst hfp
    refine ⟨?_, attrs, hp, rfl, ?_⟩
    · unfold defaultCpu
      cases h : attrs.cpu_percent <;> simp [h]
    · unfold defaultCpu
      cases h : attrs.cpu_percent <;> simp [h]
  | noSuchProcess => simp at hfp
  | accessDenied => simp at hfp
  | zombieProcess => simp at hfp

theorem C6_cpu_defaulted_memory_kept_witness :
    (⟨2, some "bash", some "root", some 0, some 3⟩ : ProcessAttrs).cpu_percent.isSome
      = true ∧
    ∃ attrs, ProcFetch.ok attrs
        ∈ [ProcFetch.ok (⟨2, some "bash", some "root", none, some 3⟩ : ProcessAttrs)] ∧
      (⟨2, some "bash", some "root", some 0, some 3⟩ : ProcessAttrs) = defaultCpu attrs ∧
      (⟨2, some "bash", some "root", some 0, some 3⟩ : ProcessAttrs).memory_percent
        = attrs.memory_percent :=
  C6_cpu_defaulted_memory_kept
    [ProcFetch.ok ⟨2, some "bash", some "root", none, some 3⟩] _ (by decide)

/-- C7: a process whose attribute read raises `NoSuchProcess`, `AccessDenied`
or `ZombieProcess` is silently excluded — the batch result is exactly the
result for the remaining processes — and every record that is included arises
whole from one successful attribute read (with only the cpu-percent
defaulting applied to it). -/
theorem C7_vanished_process_excluded (xs ys : List ProcFetch) (e : ProcFetch)
    (he : e = ProcFetch.noSuchProcess ∨ e = ProcFetch.accessDenied ∨
          e = ProcFetch.zombieProcess) :
    get_processes_info (xs ++ e :: ys) = get_processes_info (xs ++ ys) ∧
    ∀ r ∈ get_processes_info (xs ++ e :: ys),
      ∃ attrs, ProcFetch.ok attrs ∈ xs ++ ys ∧ r = defaultCpu attrs := by
  have hskip : get_processes_info (xs ++ e :: ys) = get_processes_info (xs ++ ys) := by
    rcases he with h | h | h <;> subst h <;>
      simp [get_processes_info, List.filterMap_append, List.filterMap_cons]
  refine ⟨hskip, ?_⟩
  intro r hr
  rw [hskip] at hr
  rcases List.mem_filterMap.mp hr with ⟨p, hp, hfp⟩
  cases p with
  | ok attrs =>
    simp only [Option.some.injEq] at hfp
    exact ⟨attrs, hp, hfp.symm⟩
  | noSuchProcess => simp at hfp
  | accessDenied => simp at hfp
  | zombieProcess => simp at hfp

theorem C7_vanished_process_excluded_witness :
    (ProcFetch.noSuchProcess = ProcFetch.noSuchProcess ∨
     ProcFetch.noSuchProcess = ProcFetch.accessDenied ∨
     ProcFetch.noSuchProcess = ProcFetch.zombieProcess) ∧
    (get_processes_info
        ([ProcFetch.ok ⟨1, some "systemd", some "root", some 1, some 2⟩]
          ++ ProcFetch.noSuchProcess
            :: [ProcFetch.ok ⟨7, some "bash", some "user1", none, some 4⟩])
      = get_processes_info
        ([ProcFetch.ok ⟨1, some "systemd", some "root", some 1, some 2⟩]
          ++ [ProcFetch.ok ⟨7, some "bash", some "user1", none, some 4⟩]) ∧
     ∀ r ∈ get_processes_info
        ([ProcFetch.ok ⟨1, some "systemd", some "root", some 1, some 2⟩]
          ++ ProcFetch.noSuchProcess
            :: [ProcFetch.ok ⟨7, some "bash", some "user1", none, some 4⟩]),
       ∃ attrs, ProcFetch.ok attrs
           ∈ [ProcFetch.ok (⟨1, some "systemd", some "root", some 1, some 2⟩ : ProcessAttrs)]
             ++ [ProcFetch.ok (⟨7, some "bash", some "user1", none, some 4⟩ : ProcessAttrs)] ∧
         r = defaultCpu attrs) :=
  ⟨Or.inl rfl,
    C7_vanished_process_excluded
      [ProcFetch.ok ⟨1, some "systemd", some "root", some 1, some 2⟩]
      [ProcFetch.ok ⟨7, some "bash", some "user1", none, some 4⟩]
      ProcFetch.noSuchProcess (Or.inl rfl)⟩

/-- C8: with the session idle, a non-positive or unparsable interval makes
`start_monitoring` report the invalid-interval error and return with the
state untouched — still idle, no thread spawned, no baseline captured, stop
event as it was. -/
theorem C8_invalid_interval_rejected (s : AppState) (interval : Option ℚ)
    (net_now : NetCounters)
    (hidle : s.monitoring_active = false)
    (hbad : interval = none ∨ ∃ i, interval = some i ∧ i ≤ 0) :
    (start_monitoring s interval net_now).2 = StartResult.invalidInterval ∧
    (start_monitoring s interval net_now).1 = s ∧
    (start_monitoring s interval net_now).1.monitoring_active = false ∧
    (start_monitoring s interval net_now).1.threads = s.threads ∧
    (start_monitoring s interval net_now).1.network_stats_initial
      = s.network_stats_initial := by
  rcases hbad with h | ⟨i, hi, hle⟩
  · subst h
    simp [start_monitoring, hidle]
  · subst hi
    simp [start_monitoring, hidle, hle]

theorem C8_invalid_interval_rejected_witness :
    staleState.monitoring_active = false ∧
    ((some (-1) : Option ℚ) = none ∨ ∃ i, (some (-1) : Option ℚ) = some i ∧ i ≤ 0) ∧
    ((start_monitoring staleState (some (-1)) ⟨5000, 6000⟩).2
        = StartResult.invalidInterval ∧
     (start_monitoring staleState (some (-1)) ⟨5000, 6000⟩).1 = staleState ∧
     (start_monitoring staleState (some (-1)) ⟨5000, 6000⟩).1.monitoring_active
        = false ∧
     (start_monitoring staleState (some (-1)) ⟨5000, 6000⟩).1.threads
        = staleState.threads ∧
     (start_monitoring staleState (some (-1)) ⟨5000, 6000⟩).1.network_stats_initial
        = staleState.network_stats_initial) :=
  ⟨rfl, Or.inr ⟨-1, rfl, by norm_num⟩,
    C8_invalid_interval_rejected staleState (some (-1)) ⟨5000, 6000⟩ rfl
      (Or.inr ⟨-1, rfl, by norm_num⟩)⟩

/-- C9: a second `start` with no intervening `stop` reports "already active"
and changes nothing: the state after the second call is exactly the state
after the first — one monitoring thread, the first call's baseline, the
active flag still set. -/
theorem C9_start_reentrant (s : AppState) (i : ℚ) (net1 net2 : NetCounters)
    (interval2 : Option ℚ)
    (hidle : s.monitoring_active = false) (hi : 0 < i) :
    (start_monitoring (start_monitoring s (some i) net1).1 interval2 net2).2
      = StartResult.alreadyActive ∧
    (start_monitoring (start_monitoring s (some i) net1).1 interval2 net2).1
      = (start_monitoring s (some i) net1).1 ∧
    (start_monitoring (start_monitoring s (some i) net1).1 interval2 net2).1.threads
      = s.threads + 1 ∧
    (start_monitoring
        (start_monitoring s (some i) net1).1 interval2 net2).1.network_stats_initial
      = some net1 := by
  have h1 : (start_monitoring s (some i) net1).1
      = ⟨true, false, some net1, s.cpu_graph, s.mem_graph, s.threads + 1⟩ := by
    simp [start_monitoring, hidle, not_le.mpr hi]
  rw [h1]
  simp [start_monitoring]

theorem C9_start_reentrant_witness :
    staleState.monitoring_active = false ∧ (0 : ℚ) < 2 ∧
    ((start_monitoring (start_monitoring staleState (some 2) ⟨5000, 6000⟩).1
        (some 3) ⟨7000, 8000⟩).2 = StartResult.alreadyActive ∧
     (start_monitoring (start_monitoring staleState (some 2) ⟨5000, 6000⟩).1
        (some 3) ⟨7000, 8000⟩).1 = (start_monitoring staleState (some 2) ⟨5000, 6000⟩).1 ∧
     (start_monitoring (start_monitoring staleState (some 2) ⟨5000, 6000⟩).1
        (some 3) ⟨7000, 8000⟩).1.threads = staleState.threads + 1 ∧
     (start_monitoring (start_monitoring staleState (some 2) ⟨5000, 6000⟩).1
        (some 3) ⟨7000, 8000⟩).1.network_stats_initial = some ⟨5000, 6000⟩) :=
  ⟨rfl, by norm_num,
    C9_start_reentrant staleState 2 ⟨5000, 6000⟩ ⟨7000, 8000⟩ (some 3) rfl
      (by norm_num)⟩

/-- C10: calling `get_network_stats` before any baseline exists does not
fail: it adopts the counters read at that call as the new baseline and
returns exactly 0 for both session deltas. -/
theorem C10_first_call_adopts_baseline (net_io : NetCounters) :
    get_network_stats none net_io = (some net_io, ⟨0, 0⟩) := by
  show (some net_io,
      (⟨(net_io.bytes_sent : Int) - net_io.bytes_sent,
        (net_io.bytes_recv : Int) - net_io.bytes_recv⟩ : NetDeltas))
    = (some net_io, ⟨0, 0⟩)
  rw [sub_self, sub_self]

end LogFlow
